import Mathlib

/-!
Verification of the scheduling core of the PythonLinearProgramming repository.

The development shallowly embeds the data model of `Clases.py` and the scoring
and model-building path of `asignacion.py` (entity based) and
`asignacion_ids.py` (id based).  Python machine integers are modelled as `Int`
(they are unbounded in Python), Python dicts keyed by `Identificable` entities
are modelled as association lists looked up through the entity equality of
`Identificable.__eq__` (same class, same `id`), and Python sets of entities are
modelled as lists whose membership test uses that same equality.  A solution of
the CP-SAT model is modelled as a boolean valuation of the decision variables;
a solution returned by the solver with `OPTIMAL` or `FEASIBLE` status satisfies
every posted constraint, which is the solver-interface contract assumed by the
theorems about `cumpleModelo`.
-/

/-- Entity `TipoJornada` of Clases.py (id plus localized name; the three
canonical instances have ids 1, 2, 3). -/
structure TipoJornada where
  id : Nat
  nombre_es : String
deriving DecidableEq

/-- Entity `Jornada` of Clases.py: id, localized name, `puede_doblar` flag and
the id of its `TipoJornada`.  The attribute `tipo_jornada` set in
`__post_init__` is `TipoJornada.from_id(tipo_jornada_id)`, so dictionary
lookups keyed by it are lookups by `tipo_jornada_id`. -/
structure Jornada where
  id : Nat
  nombre_es : String
  puede_doblar : Bool
  tipo_jornada_id : Nat
deriving DecidableEq

/-- Entity `PuestoTrabajo` of Clases.py. -/
structure PuestoTrabajo where
  id : Nat
  nombre_es : String
deriving DecidableEq

/-- Entity `NivelDesempeno` of Clases.py; `id` is the skill level and the
sentinel id 1 means specialty. -/
structure NivelDesempeno where
  id : Nat
  nombre_es : String
deriving DecidableEq

/-- Entity `Trabajador` of Clases.py.  `capacidades` is the dict
`post -> skill level` (keys are unique in a Python dict) and
`capacidades_ids` is the parallel dict `post id -> skill level id` kept in
sync by `Trabajador.actualizar_capacidades`.  The `especialidades` sets, used
only by the verbose statistics of the source, are omitted. -/
structure Trabajador where
  id : Nat
  nombre : String
  apellidos : String
  codigo : Int
  capacidades : List (PuestoTrabajo × NivelDesempeno)
  capacidades_ids : List (Nat × Nat)
deriving DecidableEq

/-- Python equality of two `Trabajador` objects, `Identificable.__eq__`
(Clases.py lines 106-111): same class and same id. -/
def pyEqT (a b : Trabajador) : Bool := a.id == b.id

/-- Python equality of two `PuestoTrabajo` objects (`Identificable.__eq__`). -/
def pyEqP (a b : PuestoTrabajo) : Bool := a.id == b.id

/-- Python equality of two `Jornada` objects (`Identificable.__eq__`). -/
def pyEqJ (a b : Jornada) : Bool := a.id == b.id

/-- Python equality between a `Jornada` object and an `int`.
`Identificable.__eq__` (Clases.py line 111) requires
`isinstance(other, Identificable)`, which fails for an `int`, and the
reflected `int.__eq__` comparison of an `int` with a `Jornada` is likewise
false, so this comparison is always `false`. -/
def pyEqJornadaInt (_a : Jornada) (_b : Nat) : Bool := false

/-- The named tuple `ListasPreferencias` of ClasesMetodosAuxiliares.py:
specialist lists per post, preference lists per shift type (keyed by the
`TipoJornada` entity, hence by its id), and the double-volunteer list. -/
structure ListasPreferencias where
  especialidades : List (PuestoTrabajo × List Trabajador)
  preferencias_jornada : List (TipoJornada × List Trabajador)
  voluntarios_doble : List Trabajador

/-- The named tuple `IdsListasPreferencias` of ClasesMetodosAuxiliares.py:
the same three preference containers with every entity replaced by its id. -/
structure IdsListasPreferencias where
  especialidades : List (Nat × List Nat)
  preferencias_jornada : List (Nat × List Nat)
  voluntarios_doble : List Nat

/-- The dataclass `ParametrosPuntuacion` of ClasesMetodosAuxiliares.py.  The
three per-shift-type frozendicts (keyed by `TipoJornada` entities in the
entity variant and by ints in `IdsParametrosPuntuacion`; both look up by the
type id) are modelled as total functions on the type id. -/
structure ParametrosPuntuacion where
  max_especialidad : Int
  decay_especialidad : Int
  max_capacidad : Int
  decay_capacidad : Int
  max_voluntarios_doble : Int
  decay_voluntarios_doble : Int
  max_preferencia_por_jornada : Nat → Int
  decay_preferencia_por_jornada : Nat → Int
  penalizacion_por_jornada : Nat → Int

/-- The default values of `ParametrosPuntuacion` and
`IdsParametrosPuntuacion`: 500/5 specialty, 50/10 capability, -1000/1 double
volunteers, per-type maxima {1: 300, 2: 500, 3: 700}, per-type decay
{1: 1, 2: 1, 3: 1} and per-type penalty {1: 0, 2: 50, 3: 500}. -/
def parametrosPorDefecto : ParametrosPuntuacion :=
  ⟨500, 5, 50, 10, -1000, 1,
    fun t => if t == 1 then 300 else if t == 2 then 500 else if t == 3 then 700 else 0,
    fun t => if t == 1 then 1 else if t == 2 then 1 else if t == 3 then 1 else 0,
    fun t => if t == 1 then 0 else if t == 2 then 50 else if t == 3 then 500 else 0⟩

/-- Classmethod `Jornada.jornadas_con_preferencia` (Clases.py lines 294-300):
the set of the integer ids of the registered shifts whose `nombre_es` is not
"Partida".  The registry is passed explicitly as the list of registered
`Jornada` entities. -/
def jornadasConPreferencia (regJ : List Jornada) : List Nat :=
  (regJ.filter (fun j => j.nombre_es != "Partida")).map (fun j => j.id)

/-- The membership test `jornada in Jornada.jornadas_con_preferencia()` of
asignacion.py line 96: a `Jornada` object searched in a set of integer ids,
elementwise by `pyEqJornadaInt`, hence always `false`. -/
def jornadaEnJornadasConPreferencia (regJ : List Jornada) (j : Jornada) : Bool :=
  (jornadasConPreferencia regJ).any (fun i => pyEqJornadaInt j i)

/-- Python `list.index` on a list of workers: index of the first element that
compares equal (by `Identificable.__eq__`) to the argument. -/
def indiceDe (l : List Trabajador) (w : Trabajador) : Nat :=
  l.findIdx (fun t => pyEqT t w)

/-- Python membership `trabajador in lista` on a list of workers. -/
def contieneTrabajador (l : List Trabajador) (w : Trabajador) : Bool :=
  l.any (fun t => pyEqT t w)

/-- Dict lookup `especialidades.get(puesto, [])` of asignacion.py line 90. -/
def especialidadesGet (e : List (PuestoTrabajo × List Trabajador)) (p : PuestoTrabajo) :
    List Trabajador :=
  ((e.find? (fun par => pyEqP par.1 p)).map (fun par => par.2)).getD []

/-- Dict lookup `preferencia_por_jornada[tipo_jornada]`; the key is the
`TipoJornada` entity, which compares by id. -/
def preferenciasGet (pj : List (TipoJornada × List Trabajador)) (tipoId : Nat) :
    List Trabajador :=
  ((pj.find? (fun par => par.1.id == tipoId)).map (fun par => par.2)).getD []

/-- Membership `(trabajador, jornada) in disponibilidad`: a tuple compares
componentwise by the Python equality of its components. -/
def disponibleEn (d : List (Trabajador × Jornada)) (w : Trabajador) (j : Jornada) : Bool :=
  d.any (fun par => pyEqT par.1 w && pyEqJ par.2 j)

/-- Capability score of asignacion.py line 86:
`max(0, max_capacidad - decay_capacidad * (trabajador.capacidades[puesto].id - 1))`. -/
def puntuacionCapacidad (par : ParametrosPuntuacion) (nivel : NivelDesempeno) : Int :=
  max 0 (par.max_capacidad - par.decay_capacidad * ((nivel.id : Int) - 1))

/-- Specialty score of asignacion.py lines 89-92: clamped decayed score when
the worker belongs to the specialist list of the post, else 0. -/
def puntuacionEspecialidad (par : ParametrosPuntuacion)
    (especialidades : List (PuestoTrabajo × List Trabajador))
    (p : PuestoTrabajo) (w : Trabajador) : Int :=
  let lista := especialidadesGet especialidades p
  if contieneTrabajador lista w then
    max 0 (par.max_especialidad - par.decay_especialidad * ((indiceDe lista w : Nat) : Int))
  else 0

/-- Shift score of asignacion.py lines 95-101.  The outer guard is the
always-false comparison of a `Jornada` object with a set of integer ids
(`jornadaEnJornadasConPreferencia`), so the preference and penalty branches
are unreachable in this entity-based variant; their bodies are kept as
written in the source. -/
def puntuacionJornada (regJ : List Jornada) (par : ParametrosPuntuacion)
    (pj : List (TipoJornada × List Trabajador)) (w : Trabajador) (j : Jornada) : Int :=
  if jornadaEnJornadasConPreferencia regJ j then
    let lista := preferenciasGet pj j.tipo_jornada_id
    if contieneTrabajador lista w then
      par.max_preferencia_por_jornada j.tipo_jornada_id
        - par.decay_preferencia_por_jornada j.tipo_jornada_id * ((indiceDe lista w : Nat) : Int)
    else
      - par.penalizacion_por_jornada j.tipo_jornada_id
  else 0

/-- The coefficient table of `calcular_coeficientes_puntuacion` of
asignacion.py lines 81-103: one entry per worker of the input list, per post
key of the worker's `capacidades` dict and per shift of the shift collection
with `(worker, shift)` in the availability set, holding the sum of the
capability, specialty and shift scores.  `regJ` is the `Jornada` registry
read by `Jornada.jornadas_con_preferencia()`. -/
def calcularCoeficientesPuntuacion (regJ : List Jornada)
    (trabajadores : List Trabajador) (jornadas : List Jornada)
    (disponibilidad : List (Trabajador × Jornada))
    (listas : ListasPreferencias) (par : ParametrosPuntuacion) :
    List ((Trabajador × PuestoTrabajo × Jornada) × Int) :=
  trabajadores.flatMap (fun w =>
    w.capacidades.flatMap (fun pn =>
      jornadas.filterMap (fun j =>
        if disponibleEn disponibilidad w j then
          some ((w, pn.1, j),
            puntuacionCapacidad par pn.2
              + puntuacionEspecialidad par listas.especialidades pn.1 w
              + puntuacionJornada regJ par listas.preferencias_jornada w j)
        else none)))

/-- The double-volunteer coefficient dict of asignacion.py lines 78-79:
`trabajador -> max_voluntarios_doble - decay_voluntarios_doble * rank`. -/
def coeficientesDobles (voluntarios : List Trabajador) (par : ParametrosPuntuacion) :
    List (Trabajador × Int) :=
  voluntarios.map (fun v =>
    (v, par.max_voluntarios_doble
          - par.decay_voluntarios_doble * ((indiceDe voluntarios v : Nat) : Int)))

/-- Python `list.index` on a list of ids. -/
def indiceDeNat (l : List Nat) (n : Nat) : Nat := l.findIdx (fun m => m == n)

/-- Dict lookup with default on an id-keyed dict of id lists
(`especialidades.get(puesto_id, set())` of asignacion_ids.py line 51 — the
default is only ever used for membership, where the empty list behaves as the
empty set — and `preferencia_por_jornada[tipo_jornada_id]`). -/
def listaGetNat (d : List (Nat × List Nat)) (k : Nat) : List Nat :=
  ((d.find? (fun par => par.1 == k)).map (fun par => par.2)).getD []

/-- Classmethod `Identificable.from_id` specialised to `Jornada`: lookup of an
id in the registry. -/
def fromIdJornada (regJ : List Jornada) (i : Nat) : Option Jornada :=
  regJ.find? (fun j => j.id == i)

/-- Classmethod `Identificable.from_id` specialised to `Trabajador`. -/
def fromIdTrabajador (regT : List Trabajador) (i : Nat) : Option Trabajador :=
  regT.find? (fun t => t.id == i)

/-- The coefficient table of `calcular_coeficientes_puntuacion` of
asignacion_ids.py lines 41-64, over ids.  The worker registry `regT` is read
by `Trabajador.from_id`; a `none` lookup would be an `AttributeError` in the
source and is modelled by producing no entries (the theorems only use
registered ids).  Unlike the entity-based variant, the shift branch guard
`jornada_id in Jornada.jornadas_con_preferencia()` compares ints with ints
and works as intended; inside it, `Jornada.from_id(jornada_id)` succeeds
because the guard requires the id to be in the registry (the `getD 0`
fallback is unreachable). -/
def calcularCoeficientesPuntuacionIds (regT : List Trabajador) (regJ : List Jornada)
    (trabajadores : List Nat) (jornadas : List Nat)
    (disponibilidad : List (Nat × Nat))
    (listas : IdsListasPreferencias) (par : ParametrosPuntuacion) :
    List ((Nat × Nat × Nat) × Int) :=
  trabajadores.flatMap (fun tid =>
    match fromIdTrabajador regT tid with
    | none => []
    | some t =>
      t.capacidades_ids.flatMap (fun pn =>
        jornadas.filterMap (fun jid =>
          if disponibilidad.any (fun d => d.1 == tid && d.2 == jid) then
            some ((tid, pn.1, jid),
              max 0 (par.max_capacidad - par.decay_capacidad * ((pn.2 : Int) - 1))
                + (let esp := listaGetNat listas.especialidades pn.1
                   if esp.contains tid then
                     max 0 (par.max_especialidad
                       - par.decay_especialidad * ((indiceDeNat esp tid : Nat) : Int))
                   else 0)
                + (if (jornadasConPreferencia regJ).contains jid then
                     let tipoId := ((fromIdJornada regJ jid).map
                       (fun j => j.tipo_jornada_id)).getD 0
                     let prefs := listaGetNat listas.preferencias_jornada tipoId
                     if prefs.contains tid then
                       par.max_preferencia_por_jornada tipoId
                         - par.decay_preferencia_por_jornada tipoId
                             * ((indiceDeNat prefs tid : Nat) : Int)
                     else - par.penalizacion_por_jornada tipoId
                   else 0))
          else none)))

/-- The double-volunteer coefficient dict of asignacion_ids.py lines 38-39. -/
def coeficientesDoblesIds (voluntarios : List Nat) (par : ParametrosPuntuacion) :
    List (Nat × Int) :=
  voluntarios.map (fun v =>
    (v, par.max_voluntarios_doble
          - par.decay_voluntarios_doble * ((indiceDeNat voluntarios v : Nat) : Int)))

/-- The entry `Asignacion(trabajador, puesto, jornada, var, puntuacion)` of
ClasesMetodosAuxiliares.py, without the `var` field: the decision variable of
a candidate tuple is represented by the value of a boolean valuation at the
triple of ids of the tuple. -/
structure Asignacion where
  trabajador : Trabajador
  puesto : PuestoTrabajo
  jornada : Jornada
  puntuacion : Int
deriving DecidableEq

/-- The triple of ids identifying the decision variable of a candidate. -/
def idsDe (c : Asignacion) : Nat × Nat × Nat := (c.trabajador.id, c.puesto.id, c.jornada.id)

/-- A valuation of the per-candidate decision variables `x(w, p, s)`. -/
abbrev ValAsignacion := Nat × Nat × Nat → Bool

/-- A valuation of the per-volunteer doubling variables `doble_jornada_w`. -/
abbrev ValDoble := Nat → Bool

/-- The integer value of a boolean CP-SAT variable. -/
def intDeBool (b : Bool) : Int := if b then 1 else 0

/-- The list `asignaciones` built in asignacion.py lines 165-177: one entry
per key of the coefficient dict, carrying that key's coefficient as its
`puntuacion`. -/
def asignaciones (regJ : List Jornada)
    (trabajadores : List Trabajador) (jornadas : List Jornada)
    (disponibilidad : List (Trabajador × Jornada))
    (listas : ListasPreferencias) (par : ParametrosPuntuacion) : List Asignacion :=
  (calcularCoeficientesPuntuacion regJ trabajadores jornadas disponibilidad listas par).map
    (fun e => ⟨e.1.1, e.1.2.1, e.1.2.2, e.2⟩)

/-- The linear expression `total_jornadas_trabajadas` of asignacion.py lines
209-213, evaluated under a valuation: the sum of the variables of the
candidates of a worker. -/
def totalJornadasTrabajadas (cands : List Asignacion) (x : ValAsignacion)
    (w : Trabajador) : Int :=
  ((cands.filter (fun c => pyEqT c.trabajador w)).map
    (fun c => intDeBool (x (idsDe c)))).sum

/-- The membership test `trabajador in set_voluntarios_doble` of asignacion.py
line 216. -/
def esVoluntarioDoble (vol : List Trabajador) (w : Trabajador) : Bool :=
  vol.any (fun v => pyEqT v w)

/-- The constraints posted for one worker by asignacion.py lines 206-248,
evaluated under a valuation.  For a double volunteer: at most 2 total
shifts, at most one post per shift, the two reified constraints tying the
doubling variable to `total == 2`, and zero assignments on non-doublable
shifts when doubled.  For any other worker: at most 1 total shift. -/
def restriccionesTrabajador (cands : List Asignacion) (vol : List Trabajador)
    (jornadas : List Jornada) (x : ValAsignacion) (doble : ValDoble)
    (w : Trabajador) : Bool :=
  if esVoluntarioDoble vol w then
    decide (totalJornadasTrabajadas cands x w ≤ 2)
    && jornadas.all (fun j =>
        decide ((((cands.filter (fun c => pyEqT c.trabajador w && pyEqJ c.jornada j)).map
          (fun c => intDeBool (x (idsDe c)))).sum) ≤ 1))
    && (!(doble w.id) || decide (totalJornadasTrabajadas cands x w = 2))
    && (doble w.id || decide (totalJornadasTrabajadas cands x w ≠ 2))
    && (!(doble w.id)
        || decide ((((cands.filter
              (fun c => pyEqT c.trabajador w && !c.jornada.puede_doblar)).map
            (fun c => intDeBool (x (idsDe c)))).sum) = 0))
  else
    decide (totalJornadasTrabajadas cands x w ≤ 1)

/-- The lookup `demanda.get((puesto, jornada), 0)` of asignacion.py line 258;
the dict key is a tuple of entities, compared by their ids. -/
def demandaGet (demanda : List ((Nat × Nat) × Int)) (p : PuestoTrabajo) (j : Jornada) : Int :=
  ((demanda.find? (fun e => e.1.1 == p.id && e.1.2 == j.id)).map (fun e => e.2)).getD 0

/-- The demand-coverage equality constraints of asignacion.py lines 250-258,
one per (post, shift) pair of the input sequences, evaluated under a
valuation. -/
def cumpleDemanda (cands : List Asignacion) (demanda : List ((Nat × Nat) × Int))
    (puestos : List PuestoTrabajo) (jornadas : List Jornada) (x : ValAsignacion) : Bool :=
  puestos.all (fun p => jornadas.all (fun j =>
    decide ((((cands.filter (fun c => pyEqP c.puesto p && pyEqJ c.jornada j)).map
      (fun c => intDeBool (x (idsDe c)))).sum) = demandaGet demanda p j)))

/-- Conjunction of every constraint posted on the CP model by
`realizar_asignacion` of asignacion.py (lines 206-258), evaluated under a
valuation of the decision variables.  A solution returned by the solver with
`OPTIMAL` or `FEASIBLE` status satisfies it. -/
def cumpleModelo (regJ : List Jornada)
    (trabajadores : List Trabajador) (puestos : List PuestoTrabajo)
    (jornadas : List Jornada) (disponibilidad : List (Trabajador × Jornada))
    (listas : ListasPreferencias) (par : ParametrosPuntuacion)
    (demanda : List ((Nat × Nat) × Int)) (x : ValAsignacion) (doble : ValDoble) : Bool :=
  trabajadores.all
    (restriccionesTrabajador
      (asignaciones regJ trabajadores jornadas disponibilidad listas par)
      listas.voluntarios_doble jornadas x doble)
  && cumpleDemanda (asignaciones regJ trabajadores jornadas disponibilidad listas par)
      demanda puestos jornadas x

/-- The extracted assignment of asignacion.py lines 306-310: the triples whose
decision variable takes value 1. -/
def resultadoAsignacion (cands : List Asignacion) (x : ValAsignacion) :
    List (Trabajador × PuestoTrabajo × Jornada) :=
  (cands.filter (fun c => x (idsDe c))).map (fun c => (c.trabajador, c.puesto, c.jornada))

/-- The dict lookup `coeficientes_dobles[trabajador]` of asignacion.py line
270 (the key is always present there, so the default is unreachable). -/
def buscaCoeficienteDoble (coef : List (Trabajador × Int)) (w : Trabajador) : Int :=
  ((coef.find? (fun e => pyEqT e.1 w)).map (fun e => e.2)).getD 0

/-- The linear expression `puntuacion_asignaciones` of asignacion.py lines
264-267, evaluated under a valuation. -/
def puntuacionAsignaciones (cands : List Asignacion) (x : ValAsignacion) : Int :=
  (cands.map (fun c => c.puntuacion * intDeBool (x (idsDe c)))).sum

/-- The linear expression `puntuacion_dobles` of asignacion.py lines 269-273,
evaluated under a valuation: the keys of `dobles_por_trabajador` are the
workers of the input sequence that are double volunteers (in input order),
and terms with a zero coefficient are skipped. -/
def puntuacionDobles (trabajadores vol : List Trabajador) (par : ParametrosPuntuacion)
    (doble : ValDoble) : Int :=
  (((trabajadores.filter (fun w => esVoluntarioDoble vol w)).filter
      (fun w => decide (buscaCoeficienteDoble (coeficientesDobles vol par) w ≠ 0))).map
    (fun w => buscaCoeficienteDoble (coeficientesDobles vol par) w * intDeBool (doble w.id))).sum

/-- The objective maximized by asignacion.py line 276, evaluated under a
valuation. -/
def objetivoModelo (cands : List Asignacion) (trabajadores vol : List Trabajador)
    (par : ParametrosPuntuacion) (x : ValAsignacion) (doble : ValDoble) : Int :=
  puntuacionAsignaciones cands x + puntuacionDobles trabajadores vol par doble

/-- Summing the 0/1 values of a boolean function over a list counts the
elements where it is true. -/
theorem sum_map_intDeBool {α : Type} (l : List α) (f : α → Bool) :
    (l.map (fun a => intDeBool (f a))).sum = ((l.filter f).length : Int) := by
  induction l with
  | nil => rfl
  | cons a l ih =>
    rw [List.map_cons, List.sum_cons, ih, List.filter_cons]
    cases ha : f a
    · simp [intDeBool, ha]
    · simp only [intDeBool, ha, if_pos, List.length_cons]
      push_cast
      ring

/-- A filter with a pointwise stronger predicate keeps at most as many
elements. -/
theorem length_filter_mono {α : Type} (l : List α) (p q : α → Bool)
    (h : ∀ a ∈ l, p a = true → q a = true) :
    (l.filter p).length ≤ (l.filter q).length := by
  induction l with
  | nil => exact Nat.le_refl 0
  | cons a l ih =>
    have hl := ih (fun b hb => h b (List.mem_cons_of_mem a hb))
    cases hp : p a
    · cases hq : q a
      · simpa [List.filter_cons, hp, hq] using hl
      · simp only [List.filter_cons, hp, hq, List.length_cons]
        exact Nat.le_succ_of_le hl
    · have hq := h a (List.mem_cons_self a l) hp
      simp only [List.filter_cons, hp, hq, List.length_cons]
      exact Nat.succ_le_succ hl

/-- Terms excluded by a filter may be dropped from a sum when they are zero. -/
theorem sum_map_filter_zero {α : Type} (l : List α) (p : α → Bool) (f : α → Int)
    (h : ∀ a ∈ l, p a = false → f a = 0) :
    ((l.filter p).map f).sum = (l.map f).sum := by
  induction l with
  | nil => rfl
  | cons a l ih =>
    have hl := ih (fun b hb => h b (List.mem_cons_of_mem a hb))
    cases hp : p a
    · have h0 := h a (List.mem_cons_self a l) hp
      simp [List.filter_cons, hp, hl, h0]
    · simp [List.filter_cons, hp, hl]

/-- Counting an image value in a mapped list counts the preimages. -/
theorem count_map_eq_length_filter {α : Type} (l : List α) (f : α → Nat) (n : Nat) :
    (l.map f).count n = (l.filter (fun a => f a == n)).length := by
  induction l with
  | nil => rfl
  | cons a l ih =>
    cases ha : f a == n
    · have hne : f a ≠ n := by
        intro he
        rw [he] at ha
        simp at ha
      simp [List.filter_cons, ha, List.count_cons, ih, hne]
    · have he : f a = n := by
        exact beq_iff_eq.mp ha
      simp [List.filter_cons, ha, List.count_cons, ih, he]

/-- A list holding two distinct elements has length at least two. -/
theorem two_le_length_of_mem_ne {α : Type} (l : List α) (a b : α)
    (ha : a ∈ l) (hb : b ∈ l) (hab : a ≠ b) : 2 ≤ l.length := by
  match l with
  | [] => exact absurd ha (List.not_mem_nil a)
  | [c] =>
    have ha1 : a = c := List.mem_singleton.mp ha
    have hb1 : b = c := List.mem_singleton.mp hb
    exact absurd (ha1.trans hb1.symm) hab
  | c :: d :: l =>
    simp only [List.length_cons]
    omega

/-- Membership characterization of the candidate list: an entry exists exactly
for a worker of the input list, a post key of its capability dict and an
available shift of the shift collection, and carries the scored coefficient. -/
theorem mem_asignaciones_iff (regJ : List Jornada)
    (trabajadores : List Trabajador) (jornadas : List Jornada)
    (disponibilidad : List (Trabajador × Jornada))
    (listas : ListasPreferencias) (par : ParametrosPuntuacion) (c : Asignacion) :
    c ∈ asignaciones regJ trabajadores jornadas disponibilidad listas par
      ↔ ∃ w ∈ trabajadores, ∃ pn ∈ w.capacidades, ∃ j ∈ jornadas,
          disponibleEn disponibilidad w j = true
          ∧ c = ⟨w, pn.1, j,
              puntuacionCapacidad par pn.2
                + puntuacionEspecialidad par listas.especialidades pn.1 w
                + puntuacionJornada regJ par listas.preferencias_jornada w j⟩ := by
  unfold asignaciones calcularCoeficientesPuntuacion
  simp only [List.mem_map, List.mem_flatMap, List.mem_filterMap]
  constructor
  · rintro ⟨e, ⟨w, hw, pn, hpn, j, hj, he⟩, hc⟩
    by_cases hd : disponibleEn disponibilidad w j = true
    · rw [if_pos hd] at he
      refine ⟨w, hw, pn, hpn, j, hj, hd, ?_⟩
      cases he
      exact hc.symm
    · rw [if_neg hd] at he
      cases he
  · rintro ⟨w, hw, pn, hpn, j, hj, hd, hc⟩
    exact ⟨((w, pn.1, j),
        puntuacionCapacidad par pn.2
          + puntuacionEspecialidad par listas.especialidades pn.1 w
          + puntuacionJornada regJ par listas.preferencias_jornada w j),
      ⟨w, hw, pn, hpn, j, hj, by rw [if_pos hd]⟩, hc.symm⟩

/-- Every candidate entry references a worker of the input worker list and a
shift of the input shift collection. -/
theorem mem_asignaciones_trabajador (regJ : List Jornada)
    (trabajadores : List Trabajador) (jornadas : List Jornada)
    (disponibilidad : List (Trabajador × Jornada))
    (listas : ListasPreferencias) (par : ParametrosPuntuacion) (c : Asignacion)
    (hc : c ∈ asignaciones regJ trabajadores jornadas disponibilidad listas par) :
    c.trabajador ∈ trabajadores ∧ c.jornada ∈ jornadas := by
  rcases (mem_asignaciones_iff regJ trabajadores jornadas disponibilidad listas par c).mp hc
    with ⟨w, hw, pn, _hpn, j, hj, _hd, hc'⟩
  rw [hc']
  exact ⟨hw, hj⟩

/-- A filtered 0/1 sum counts the entries of the merged filter. -/
theorem sum_filtro_eq_length (cands : List Asignacion) (p : Asignacion → Bool)
    (x : ValAsignacion) :
    ((cands.filter p).map (fun c => intDeBool (x (idsDe c)))).sum
      = ((cands.filter (fun c => p c && x (idsDe c))).length : Int) := by
  rw [sum_map_intDeBool, List.filter_filter]
  congr 2
  exact List.filter_congr (fun c _ => by rw [Bool.and_comm])

/-- The total-shifts expression of a worker counts its selected candidates. -/
theorem total_jornadas_eq_length (cands : List Asignacion) (x : ValAsignacion)
    (w : Trabajador) :
    totalJornadasTrabajadas cands x w
      = ((cands.filter (fun c => pyEqT c.trabajador w && x (idsDe c))).length : Int) := by
  unfold totalJornadasTrabajadas
  exact sum_filtro_eq_length cands (fun c => pyEqT c.trabajador w) x

/-- Filtering the extracted assignment by a (post, shift) pair is filtering
the selected candidates by that pair. -/
theorem resultado_filter_eq (cands : List Asignacion) (x : ValAsignacion)
    (p : PuestoTrabajo) (j : Jornada) :
    (resultadoAsignacion cands x).filter (fun r => pyEqP r.2.1 p && pyEqJ r.2.2 j)
      = (cands.filter (fun c => (pyEqP c.puesto p && pyEqJ c.jornada j) && x (idsDe c))).map
          (fun c => (c.trabajador, c.puesto, c.jornada)) := by
  unfold resultadoAsignacion
  rw [List.filter_map, List.filter_filter]
  rfl

/-- Claim C2: the model contains, for every (post, shift) pair of the input
sequences, the equality constraint that the selected candidate variables of
that pair sum to `demanda.get((post, shift), 0)`; consequently any valuation
satisfying the model assigns exactly that many workers (pairwise distinct) to
the pair in the extracted assignment. -/
theorem c2_cobertura_exacta_demanda (regJ : List Jornada)
    (trabajadores : List Trabajador) (puestos : List PuestoTrabajo)
    (jornadas : List Jornada) (disponibilidad : List (Trabajador × Jornada))
    (listas : ListasPreferencias) (par : ParametrosPuntuacion)
    (demanda : List ((Nat × Nat) × Int)) (x : ValAsignacion) (doble : ValDoble)
    (cands : List Asignacion) (p : PuestoTrabajo) (j : Jornada)
    (hcands : cands = asignaciones regJ trabajadores jornadas disponibilidad listas par)
    (hx : cumpleModelo regJ trabajadores puestos jornadas disponibilidad listas par
            demanda x doble = true)
    (hp : p ∈ puestos) (hj : j ∈ jornadas) :
    ((((resultadoAsignacion cands x).filter
        (fun r => pyEqP r.2.1 p && pyEqJ r.2.2 j)).length : Int) = demandaGet demanda p j)
    ∧ ((((resultadoAsignacion cands x).filter
        (fun r => pyEqP r.2.1 p && pyEqJ r.2.2 j)).map (fun r => r.1.id)).Nodup) := by
  unfold cumpleModelo at hx
  rw [← hcands, Bool.and_eq_true] at hx
  obtain ⟨hW, hD⟩ := hx
  have hDp := (List.all_eq_true.mp hD) p hp
  have hDj := (List.all_eq_true.mp hDp) j hj
  rw [decide_eq_true_eq, sum_filtro_eq_length] at hDj
  rw [resultado_filter_eq]
  constructor
  · rw [List.length_map]
    exact hDj
  · rw [List.map_map]
    show ((cands.filter
        (fun c => (pyEqP c.puesto p && pyEqJ c.jornada j) && x (idsDe c))).map
      (fun c => c.trabajador.id)).Nodup
    rw [List.nodup_iff_count_le_one]
    intro n
    rw [count_map_eq_length_filter, List.filter_filter]
    by_cases ht : ∃ t ∈ trabajadores, t.id = n
    · obtain ⟨t, htmem, htid⟩ := ht
      have hWt := (List.all_eq_true.mp hW) t htmem
      unfold restriccionesTrabajador at hWt
      cases hv : esVoluntarioDoble listas.voluntarios_doble t
      · rw [hv] at hWt
        simp only [Bool.false_eq_true, if_false, decide_eq_true_eq] at hWt
        rw [total_jornadas_eq_length] at hWt
        have hlen : (cands.filter
            (fun c => pyEqT c.trabajador t && x (idsDe c))).length ≤ 1 := by
          exact_mod_cast hWt
        refine Nat.le_trans (length_filter_mono _ _ _ ?_) hlen
        intro c _ hcq
        simp only [Bool.and_eq_true, beq_iff_eq] at hcq
        obtain ⟨hcn, ⟨_hcp, _hcj⟩, hcx⟩ := hcq
        simp only [Bool.and_eq_true]
        refine ⟨?_, hcx⟩
        unfold pyEqT
        rw [hcn, htid]
        exact beq_self_eq_true n
      · rw [hv] at hWt
        simp only [if_true, Bool.and_eq_true, List.all_eq_true, decide_eq_true_eq] at hWt
        obtain ⟨⟨⟨⟨_h2, hPorJ⟩, _hr1⟩, _hr2⟩, _hnd⟩ := hWt
        have hJconstr := hPorJ j hj
        rw [sum_filtro_eq_length] at hJconstr
        have hlen : (cands.filter
            (fun c => (pyEqT c.trabajador t && pyEqJ c.jornada j) && x (idsDe c))).length ≤ 1 := by
          exact_mod_cast hJconstr
        refine Nat.le_trans (length_filter_mono _ _ _ ?_) hlen
        intro c _ hcq
        simp only [Bool.and_eq_true, beq_iff_eq] at hcq
        obtain ⟨hcn, ⟨_hcp, hcj⟩, hcx⟩ := hcq
        simp only [Bool.and_eq_true]
        refine ⟨⟨?_, hcj⟩, hcx⟩
        unfold pyEqT
        rw [hcn, htid]
        exact beq_self_eq_true n
    · have hnil : (cands.filter
          (fun c => c.trabajador.id == n
            && ((pyEqP c.puesto p && pyEqJ c.jornada j) && x (idsDe c)))) = [] := by
        rw [List.filter_eq_nil_iff]
        intro c hcmem hcq
        simp only [Bool.and_eq_true, beq_iff_eq] at hcq
        have hmemT := (mem_asignaciones_trabajador regJ trabajadores jornadas
          disponibilidad listas par c (hcands ▸ hcmem)).1
        exact ht ⟨c.trabajador, hmemT, hcq.1⟩
      rw [hnil]
      exact Nat.zero_le 1

/-- Claim C3: under any valuation satisfying the model, a double volunteer is
assigned at most 2 candidate tuples and any other worker at most 1; and a
worker selected on two candidates of distinct shifts is a double volunteer
whose selected candidates all lie on shifts with `puede_doblar`. -/
theorem c3_limites_trabajador_y_dobles (regJ : List Jornada)
    (trabajadores : List Trabajador) (puestos : List PuestoTrabajo)
    (jornadas : List Jornada) (disponibilidad : List (Trabajador × Jornada))
    (listas : ListasPreferencias) (par : ParametrosPuntuacion)
    (demanda : List ((Nat × Nat) × Int)) (x : ValAsignacion) (doble : ValDoble)
    (cands : List Asignacion)
    (hcands : cands = asignaciones regJ trabajadores jornadas disponibilidad listas par)
    (hx : cumpleModelo regJ trabajadores puestos jornadas disponibilidad listas par
            demanda x doble = true) :
    (∀ w ∈ trabajadores,
        (esVoluntarioDoble listas.voluntarios_doble w = true →
          (cands.filter (fun c => pyEqT c.trabajador w && x (idsDe c))).length ≤ 2)
      ∧ (esVoluntarioDoble listas.voluntarios_doble w = false →
          (cands.filter (fun c => pyEqT c.trabajador w && x (idsDe c))).length ≤ 1))
    ∧ (∀ c1 ∈ cands, ∀ c2 ∈ cands,
        pyEqT c2.trabajador c1.trabajador = true →
        x (idsDe c1) = true → x (idsDe c2) = true →
        c1.jornada.id ≠ c2.jornada.id →
          esVoluntarioDoble listas.voluntarios_doble c1.trabajador = true
          ∧ (∀ c ∈ cands, pyEqT c.trabajador c1.trabajador = true →
              x (idsDe c) = true → c.jornada.puede_doblar = true)) := by
  unfold cumpleModelo at hx
  rw [← hcands, Bool.and_eq_true] at hx
  obtain ⟨hW, _hD⟩ := hx
  constructor
  · intro w hw
    have hWt := (List.all_eq_true.mp hW) w hw
    unfold restriccionesTrabajador at hWt
    cases hv : esVoluntarioDoble listas.voluntarios_doble w
    · rw [hv] at hWt
      simp only [Bool.false_eq_true, if_false, decide_eq_true_eq] at hWt
      rw [total_jornadas_eq_length] at hWt
      have hlen1 : (cands.filter (fun c => pyEqT c.trabajador w && x (idsDe c))).length ≤ 1 := by
        exact_mod_cast hWt
      exact ⟨fun hcon => Bool.noConfusion hcon, fun _ => hlen1⟩
    · rw [hv] at hWt
      simp only [if_true, Bool.and_eq_true, List.all_eq_true, decide_eq_true_eq] at hWt
      obtain ⟨⟨⟨⟨h1, _h2all⟩, _h3⟩, _h4⟩, _h5⟩ := hWt
      rw [total_jornadas_eq_length] at h1
      have hlen2 : (cands.filter (fun c => pyEqT c.trabajador w && x (idsDe c))).length ≤ 2 := by
        exact_mod_cast h1
      exact ⟨fun _ => hlen2, fun hcon => Bool.noConfusion hcon⟩
  · intro c1 hc1 c2 hc2 heqT hx1 hx2 hneJ
    have hwmem := (mem_asignaciones_trabajador regJ trabajadores jornadas disponibilidad
      listas par c1 (hcands ▸ hc1)).1
    have hWt := (List.all_eq_true.mp hW) c1.trabajador hwmem
    unfold restriccionesTrabajador at hWt
    have hself : pyEqT c1.trabajador c1.trabajador = true := by
      unfold pyEqT
      exact beq_self_eq_true _
    have hmemf1 : c1 ∈ cands.filter
        (fun c => pyEqT c.trabajador c1.trabajador && x (idsDe c)) := by
      rw [List.mem_filter]
      refine ⟨hc1, ?_⟩
      rw [hself, hx1]
      rfl
    have hmemf2 : c2 ∈ cands.filter
        (fun c => pyEqT c.trabajador c1.trabajador && x (idsDe c)) := by
      rw [List.mem_filter]
      refine ⟨hc2, ?_⟩
      rw [heqT, hx2]
      rfl
    have hne12 : c1 ≠ c2 := by
      intro he
      exact hneJ (by rw [he])
    have h2le := two_le_length_of_mem_ne _ c1 c2 hmemf1 hmemf2 hne12
    cases hv : esVoluntarioDoble listas.voluntarios_doble c1.trabajador
    · rw [hv] at hWt
      simp only [Bool.false_eq_true, if_false, decide_eq_true_eq] at hWt
      rw [total_jornadas_eq_length] at hWt
      have hlen1 : (cands.filter
          (fun c => pyEqT c.trabajador c1.trabajador && x (idsDe c))).length ≤ 1 := by
        exact_mod_cast hWt
      omega
    · rw [hv] at hWt
      simp only [if_true, Bool.and_eq_true, List.all_eq_true, Bool.or_eq_true,
        Bool.not_eq_true', decide_eq_true_eq] at hWt
      obtain ⟨⟨⟨⟨h1, _h2all⟩, _h3⟩, h4⟩, h5⟩ := hWt
      rw [total_jornadas_eq_length] at h1 h4
      have h2le' : (2 : Int) ≤ ((cands.filter
          (fun c => pyEqT c.trabajador c1.trabajador && x (idsDe c))).length : Int) := by
        exact_mod_cast h2le
      have htot : ((cands.filter
          (fun c => pyEqT c.trabajador c1.trabajador && x (idsDe c))).length : Int) = 2 := by
        omega
      have hdob : doble c1.trabajador.id = true := by
        rcases h4 with h | h
        · exact h
        · exact absurd htot h
      have hzero : ((cands.filter
          (fun c => pyEqT c.trabajador c1.trabajador && !c.jornada.puede_doblar)).map
          (fun c => intDeBool (x (idsDe c)))).sum = 0 := by
        rcases h5 with h | h
        · exact absurd hdob (by rw [h]; exact Bool.false_ne_true)
        · exact h
      rw [sum_filtro_eq_length] at hzero
      have hlen0 : (cands.filter
          (fun c => (pyEqT c.trabajador c1.trabajador && !c.jornada.puede_doblar)
            && x (idsDe c))).length = 0 := by
        exact_mod_cast hzero
      refine ⟨rfl, ?_⟩
      intro c hcmem hceq hcx
      cases hcd : c.jornada.puede_doblar
      · exfalso
        have hcin : c ∈ cands.filter
            (fun c => (pyEqT c.trabajador c1.trabajador && !c.jornada.puede_doblar)
              && x (idsDe c)) := by
          rw [List.mem_filter]
          refine ⟨hcmem, ?_⟩
          rw [hceq, hcd, hcx]
          rfl
        rw [List.length_eq_zero] at hlen0
        rw [hlen0] at hcin
        exact absurd hcin (List.not_mem_nil c)
      · rfl

/-- The dict lookup of a double-volunteer coefficient yields the decayed
formula at the worker's first position in the volunteer list. -/
theorem busca_coeficiente_doble_eq (vol : List Trabajador) (par : ParametrosPuntuacion)
    (w : Trabajador) (hw : esVoluntarioDoble vol w = true) :
    buscaCoeficienteDoble (coeficientesDobles vol par) w
      = par.max_voluntarios_doble
          - par.decay_voluntarios_doble * ((indiceDe vol w : Nat) : Int) := by
  unfold buscaCoeficienteDoble coeficientesDobles
  rw [List.find?_map]
  have hpred : ((fun e : Trabajador × Int => pyEqT e.1 w) ∘
      (fun v => (v, par.max_voluntarios_doble
        - par.decay_voluntarios_doble * ((indiceDe vol v : Nat) : Int))))
      = fun v => pyEqT v w := rfl
  rw [hpred]
  cases hfind : vol.find? (fun v => pyEqT v w) with
  | none =>
    exfalso
    unfold esVoluntarioDoble at hw
    rw [List.any_eq_true] at hw
    obtain ⟨v, hvmem, hvp⟩ := hw
    exact (List.find?_eq_none.mp hfind v hvmem) hvp
  | some v0 =>
    simp only [Option.map_some', Option.getD_some]
    have hp0 := List.find?_some hfind
    simp only [pyEqT, beq_iff_eq] at hp0
    have hid : v0.id = w.id := hp0
    have hfun : (fun t => pyEqT t v0) = (fun t => pyEqT t w) := by
      funext t
      unfold pyEqT
      rw [hid]
    unfold indiceDe
    rw [hfun]

/-- The doubling term of the objective, summed by the source over the workers
of the input sequence that are double volunteers and skipping zero
coefficients, equals the claim's sum over the double-volunteer list. -/
theorem puntuacion_dobles_eq (trabajadores vol : List Trabajador)
    (par : ParametrosPuntuacion) (doble : ValDoble)
    (hT : (trabajadores.map (fun t => t.id)).Nodup)
    (hV : (vol.map (fun v => v.id)).Nodup)
    (hsub : ∀ v ∈ vol, ∃ t ∈ trabajadores, t.id = v.id) :
    puntuacionDobles trabajadores vol par doble
      = (vol.map (fun v =>
          (par.max_voluntarios_doble
            - par.decay_voluntarios_doble * ((indiceDe vol v : Nat) : Int))
            * intDeBool (doble v.id))).sum := by
  unfold puntuacionDobles
  rw [sum_map_filter_zero _ _ _ (by
    intro w _ hp
    have h0 : buscaCoeficienteDoble (coeficientesDobles vol par) w = 0 :=
      not_not.mp (decide_eq_false_iff_not.mp hp)
    rw [h0, zero_mul])]
  have hmapS : (trabajadores.filter (fun w => esVoluntarioDoble vol w)).map
      (fun w => buscaCoeficienteDoble (coeficientesDobles vol par) w * intDeBool (doble w.id))
      = (trabajadores.filter (fun w => esVoluntarioDoble vol w)).map
      (fun w => (par.max_voluntarios_doble
          - par.decay_voluntarios_doble * ((vol.findIdx (fun t => t.id == w.id) : Nat) : Int))
          * intDeBool (doble w.id)) := by
    apply List.map_eq_map_iff.mpr
    intro w hw
    rw [busca_coeficiente_doble_eq vol par w (List.mem_filter.mp hw).2]
    rfl
  rw [hmapS]
  have hperm : ((trabajadores.filter (fun w => esVoluntarioDoble vol w)).map
      (fun w => w.id)).Perm (vol.map (fun v => v.id)) := by
    refine (List.perm_ext_iff_of_nodup
      (hT.sublist ((List.filter_sublist trabajadores).map (fun w => w.id))) hV).mpr ?_
    intro n
    constructor
    · intro hn
      rw [List.mem_map] at hn
      obtain ⟨w, hwmem, hwid⟩ := hn
      have hes := (List.mem_filter.mp hwmem).2
      unfold esVoluntarioDoble at hes
      rw [List.any_eq_true] at hes
      obtain ⟨v, hvmem, hvp⟩ := hes
      rw [List.mem_map]
      exact ⟨v, hvmem, (beq_iff_eq.mp hvp).trans hwid⟩
    · intro hn
      rw [List.mem_map] at hn
      obtain ⟨v, hvmem, hvid⟩ := hn
      obtain ⟨t, htmem, htid⟩ := hsub v hvmem
      rw [List.mem_map]
      refine ⟨t, ?_, htid.trans hvid⟩
      rw [List.mem_filter]
      refine ⟨htmem, ?_⟩
      unfold esVoluntarioDoble
      rw [List.any_eq_true]
      refine ⟨v, hvmem, ?_⟩
      unfold pyEqT
      rw [htid]
      exact beq_self_eq_true _
  have hsrc : (trabajadores.filter (fun w => esVoluntarioDoble vol w)).map
      (fun w => (par.max_voluntarios_doble
          - par.decay_voluntarios_doble * ((vol.findIdx (fun t => t.id == w.id) : Nat) : Int))
          * intDeBool (doble w.id))
      = ((trabajadores.filter (fun w => esVoluntarioDoble vol w)).map (fun w => w.id)).map
          (fun n => (par.max_voluntarios_doble
            - par.decay_voluntarios_doble * ((vol.findIdx (fun t => t.id == n) : Nat) : Int))
            * intDeBool (doble n)) := by
    rw [List.map_map]
    rfl
  have hdst : vol.map (fun v =>
      (par.max_voluntarios_doble
        - par.decay_voluntarios_doble * ((indiceDe vol v : Nat) : Int))
        * intDeBool (doble v.id))
      = (vol.map (fun v => v.id)).map
          (fun n => (par.max_voluntarios_doble
            - par.decay_voluntarios_doble * ((vol.findIdx (fun t => t.id == n) : Nat) : Int))
            * intDeBool (doble n)) := by
    rw [List.map_map]
    rfl
  rw [hsrc, hdst]
  exact (hperm.map _).sum_eq

/-- Claim C4: the objective maximized by the model equals the sum over the
coefficient table of coefficient times assignment variable, plus the sum over
the double-volunteer list of the decayed doubling coefficient times the
doubling variable (zero-coefficient terms being droppable). -/
theorem c4_funcion_objetivo (regJ : List Jornada)
    (trabajadores : List Trabajador) (jornadas : List Jornada)
    (disponibilidad : List (Trabajador × Jornada))
    (listas : ListasPreferencias) (par : ParametrosPuntuacion)
    (x : ValAsignacion) (doble : ValDoble) (cands : List Asignacion)
    (hcands : cands = asignaciones regJ trabajadores jornadas disponibilidad listas par)
    (hT : (trabajadores.map (fun t => t.id)).Nodup)
    (hV : (listas.voluntarios_doble.map (fun v => v.id)).Nodup)
    (hsub : ∀ v ∈ listas.voluntarios_doble, ∃ t ∈ trabajadores, t.id = v.id) :
    objetivoModelo cands trabajadores listas.voluntarios_doble par x doble
      = ((calcularCoeficientesPuntuacion regJ trabajadores jornadas disponibilidad
            listas par).map
          (fun e => e.2 * intDeBool (x (e.1.1.id, e.1.2.1.id, e.1.2.2.id)))).sum
        + (listas.voluntarios_doble.map (fun v =>
            (par.max_voluntarios_doble
              - par.decay_voluntarios_doble
                  * ((indiceDe listas.voluntarios_doble v : Nat) : Int))
              * intDeBool (doble v.id))).sum := by
  unfold objetivoModelo
  rw [puntuacion_dobles_eq trabajadores listas.voluntarios_doble par doble hT hV hsub]
  congr 1
  rw [hcands]
  unfold puntuacionAsignaciones asignaciones
  rw [List.map_map]
  rfl

/-- Two booleans agreeing as propositions are equal. -/
theorem bool_eq_of_iff {a b : Bool} (h : a = true ↔ b = true) : a = b := by
  cases a <;> cases b <;> simp_all

/-- Claim C5: the coefficient table (and hence the variable list built from
its keys) has an entry for a (worker, post, shift) triple of the input
universe exactly when the post is a key of the worker's capability dict and
(worker, shift) is in the availability set. -/
theorem c5_tabla_exactamente_candidatos (regJ : List Jornada)
    (trabajadores : List Trabajador) (jornadas : List Jornada)
    (disponibilidad : List (Trabajador × Jornada))
    (listas : ListasPreferencias) (par : ParametrosPuntuacion)
    (w : Trabajador) (p : PuestoTrabajo) (j : Jornada)
    (hT : (trabajadores.map (fun t => t.id)).Nodup)
    (hw : w ∈ trabajadores) (hj : j ∈ jornadas) :
    ((asignaciones regJ trabajadores jornadas disponibilidad listas par).any
        (fun c => decide (idsDe c = (w.id, p.id, j.id))))
      = (w.capacidades.any (fun pn => pn.1.id == p.id)
          && disponibleEn disponibilidad w j) := by
  apply bool_eq_of_iff
  constructor
  · intro hl
    rw [List.any_eq_true] at hl
    obtain ⟨c, hcmem, hcp⟩ := hl
    rw [decide_eq_true_eq] at hcp
    rcases (mem_asignaciones_iff regJ trabajadores jornadas disponibilidad listas
      par c).mp hcmem with ⟨t, htmem, pn, hpn, j', hj', hd, hceq⟩
    subst hceq
    simp only [idsDe] at hcp
    have h1 : t.id = w.id := congrArg (fun q => q.1) hcp
    have h2 : pn.1.id = p.id := congrArg (fun q => q.2.1) hcp
    have h3 : j'.id = j.id := congrArg (fun q => q.2.2) hcp
    have htw : t = w := List.inj_on_of_nodup_map hT htmem hw h1
    subst htw
    rw [Bool.and_eq_true]
    constructor
    · rw [List.any_eq_true]
      exact ⟨pn, hpn, beq_iff_eq.mpr h2⟩
    · unfold disponibleEn at hd ⊢
      rw [List.any_eq_true] at hd ⊢
      obtain ⟨d, hdmem, hdp⟩ := hd
      rw [Bool.and_eq_true] at hdp
      refine ⟨d, hdmem, ?_⟩
      rw [Bool.and_eq_true]
      refine ⟨hdp.1, ?_⟩
      have hdj : d.2.id = j'.id := by
        have hh := hdp.2
        simp only [pyEqJ, beq_iff_eq] at hh
        exact hh
      simp only [pyEqJ, beq_iff_eq]
      exact hdj.trans h3
  · intro hr
    rw [Bool.and_eq_true] at hr
    obtain ⟨hcap, hdisp⟩ := hr
    rw [List.any_eq_true] at hcap
    obtain ⟨pn, hpn, hpid⟩ := hcap
    rw [List.any_eq_true]
    refine ⟨⟨w, pn.1, j,
      puntuacionCapacidad par pn.2
        + puntuacionEspecialidad par listas.especialidades pn.1 w
        + puntuacionJornada regJ par listas.preferencias_jornada w j⟩, ?_, ?_⟩
    · exact (mem_asignaciones_iff regJ trabajadores jornadas disponibilidad listas
        par _).mpr ⟨w, hw, pn, hpn, j, hj, hdisp, rfl⟩
    · rw [decide_eq_true_eq]
      simp only [idsDe]
      rw [beq_iff_eq.mp hpid]

/-- An entity abstracted at the level at which `Identificable.__new__`
operates: its id together with the tuple of the remaining non-underscore
dataclass field values of the freshly initialised object, compared by Python
equality (abstracted as strings with decidable equality). -/
structure Entidad where
  id : Nat
  campos : List String
deriving DecidableEq

/-- Registry lookup `registro.get(id_)` of Clases.py line 39 (one registry
dict per class, keyed by the integer id). -/
def registroLookup (reg : List (Nat × Entidad)) (i : Nat) : Option Entidad :=
  (reg.find? (fun e => e.1 == i)).map (fun e => e.2)

/-- Constructor interception `Identificable.__new__` (Clases.py lines 30-62).
With the id already registered, every non-underscore dataclass field of the
freshly initialised dummy is compared against the existing instance: any
mismatch raises `ValueError` (the `DuplicateIdConflict` error kind of the
spec) and full agreement returns the existing instance with the registry
unchanged.  With a fresh id the new object is registered and returned. -/
def identificableNew (reg : List (Nat × Entidad)) (nuevo : Entidad) :
    Except String (Entidad × List (Nat × Entidad)) :=
  match registroLookup reg nuevo.id with
  | some existente =>
      if existente.id == nuevo.id && existente.campos == nuevo.campos then
        Except.ok (existente, reg)
      else
        Except.error "DuplicateIdConflict"
  | none => Except.ok (nuevo, reg ++ [(nuevo.id, nuevo)])

/-- Claim C6: constructing with an id already present returns the previously
registered instance when every field of the new construction equals the
existing one, raises the duplicate-id conflict when any field differs, and
constructing with a fresh id registers and returns the new instance. -/
theorem c6_registro_identificable (reg : List (Nat × Entidad)) (nuevo : Entidad) :
    (∀ ex, registroLookup reg nuevo.id = some ex → ex.id = nuevo.id →
        ((ex.campos = nuevo.campos →
            identificableNew reg nuevo = Except.ok (ex, reg))
          ∧ (ex.campos ≠ nuevo.campos →
            identificableNew reg nuevo = Except.error "DuplicateIdConflict")))
    ∧ (registroLookup reg nuevo.id = none →
        identificableNew reg nuevo = Except.ok (nuevo, reg ++ [(nuevo.id, nuevo)])) := by
  constructor
  · intro ex hex hid
    constructor
    · intro hc
      have hcond : (ex.id == nuevo.id && ex.campos == nuevo.campos) = true := by
        rw [Bool.and_eq_true]
        exact ⟨beq_iff_eq.mpr hid, beq_iff_eq.mpr hc⟩
      simp [identificableNew, hex, hcond]
    · intro hc
      have hcond : (ex.id == nuevo.id && ex.campos == nuevo.campos) = false := by
        cases hb : (ex.id == nuevo.id && ex.campos == nuevo.campos)
        · rfl
        · rw [Bool.and_eq_true] at hb
          exact absurd (beq_iff_eq.mp hb.2) hc
      simp [identificableNew, hex, hcond]
  · intro hnone
    simp [identificableNew, hnone]

/-- The concrete classes extending `Identificable` embedded here; identity of
Python classes (`type(self) is type(other)`) is equality of these tags. -/
inductive ClaseIdentificable where
  | trabajadorC
  | puestoC
  | jornadaC
  | tipoJornadaC
  | nivelC
deriving DecidableEq

/-- An object of one of the embedded classes extending `Identificable`. -/
inductive ObjetoIdentificable where
  | deTrabajador : Trabajador → ObjetoIdentificable
  | dePuesto : PuestoTrabajo → ObjetoIdentificable
  | deJornada : Jornada → ObjetoIdentificable
  | deTipoJornada : TipoJornada → ObjetoIdentificable
  | deNivel : NivelDesempeno → ObjetoIdentificable
deriving DecidableEq

/-- The concrete class tag of an object. -/
def claseDe : ObjetoIdentificable → ClaseIdentificable
  | .deTrabajador _ => .trabajadorC
  | .dePuesto _ => .puestoC
  | .deJornada _ => .jornadaC
  | .deTipoJornada _ => .tipoJornadaC
  | .deNivel _ => .nivelC

/-- The id attribute of an object. -/
def idDe : ObjetoIdentificable → Nat
  | .deTrabajador t => t.id
  | .dePuesto p => p.id
  | .deJornada j => j.id
  | .deTipoJornada t => t.id
  | .deNivel n => n.id

/-- `Identificable.__eq__` (Clases.py lines 106-111): true exactly when the
other object is an `Identificable` of the same concrete class with the same
id; every other field is ignored. -/
def pyEqIdentificable : ObjetoIdentificable → ObjetoIdentificable → Bool
  | .deTrabajador a, .deTrabajador b => a.id == b.id
  | .dePuesto a, .dePuesto b => a.id == b.id
  | .deJornada a, .deJornada b => a.id == b.id
  | .deTipoJornada a, .deTipoJornada b => a.id == b.id
  | .deNivel a, .deNivel b => a.id == b.id
  | _, _ => false

/-- `Identificable.__hash__` (Clases.py lines 113-117):
`hash((type(self), self.id))`; Python's hash of that pair is a function of
exactly the pair, which is kept as the hash value. -/
def pyHashIdentificable (o : ObjetoIdentificable) : ClaseIdentificable × Nat :=
  (claseDe o, idDe o)

/-- Claim C10: two `Identificable` objects compare equal exactly when they
have the same concrete class and the same id, equal objects hash equal, and
the hash is the pair (class, id). -/
theorem c10_igualdad_y_hash_por_id (x y : ObjetoIdentificable) :
    (pyEqIdentificable x y = true ↔ claseDe x = claseDe y ∧ idDe x = idDe y)
    ∧ (pyEqIdentificable x y = true →
        pyHashIdentificable x = pyHashIdentificable y)
    ∧ pyHashIdentificable x = (claseDe x, idDe x) := by
  have hiff : pyEqIdentificable x y = true ↔ claseDe x = claseDe y ∧ idDe x = idDe y := by
    cases x <;> cases y <;> simp [pyEqIdentificable, claseDe, idDe]
  refine ⟨hiff, ?_, rfl⟩
  intro h
  obtain ⟨h1, h2⟩ := hiff.mp h
  unfold pyHashIdentificable
  rw [h1, h2]

/-- A concrete post used by the concrete evaluations. -/
def puestoEjemplo : PuestoTrabajo := ⟨1, "Estibador"⟩

/-- The specialty skill level (sentinel id 1). -/
def nivelEspecialidad : NivelDesempeno := ⟨1, "Especialidad"⟩

/-- A concrete worker capable of `puestoEjemplo` at specialty level. -/
def trabajadorEjemplo : Trabajador :=
  ⟨1, "Ana", "Diaz", 100, [(puestoEjemplo, nivelEspecialidad)], [(1, 1)]⟩

/-- The canonical morning shift `Jornada(1, "Mañana", True, 1)`. -/
def jornadaManana : Jornada := ⟨1, "Mañana", true, 1⟩

/-- The canonical afternoon shift `Jornada(2, "Tarde", True, 2)`. -/
def jornadaTarde : Jornada := ⟨2, "Tarde", true, 2⟩

/-- The canonical night shift `Jornada(4, "Noche1", False, 3)`. -/
def jornadaNoche1 : Jornada := ⟨4, "Noche1", false, 3⟩

/-- The morning shift type. -/
def tipoManana : TipoJornada := ⟨1, "Mañana"⟩

/-- The afternoon shift type. -/
def tipoTarde : TipoJornada := ⟨2, "Tarde"⟩

/-- The night shift type. -/
def tipoNoche : TipoJornada := ⟨3, "Noche"⟩

/-- Claim C1, failing input: a worker with one specialty capability, available
on the preference-bearing Noche1 shift and absent from the night preference
list.  The id-based `calcular_coeficientes_puntuacion` produces
`max(0, 50 - 10*(1-1)) + 0 - penalizacion[3] = -450`, exactly what the
claim's formula prescribes (case b); the entity-based variant of
asignacion.py produces 50, dropping the shift term, because its
preference-bearing test compares a `Jornada` object against a set of integer
ids and is always false. -/
theorem c1_coeficiente_jornada_divergencia :
    calcularCoeficientesPuntuacionIds [trabajadorEjemplo] [jornadaNoche1]
        [1] [4] [(1, 4)] ⟨[], [(3, [])], []⟩ parametrosPorDefecto
      = [((1, 1, 4), -450)]
    ∧ calcularCoeficientesPuntuacion [jornadaNoche1] [trabajadorEjemplo] [jornadaNoche1]
        [(trabajadorEjemplo, jornadaNoche1)] ⟨[], [(tipoNoche, [])], []⟩
        parametrosPorDefecto
      = [((trabajadorEjemplo, puestoEjemplo, jornadaNoche1), 50)]
    ∧ (50 : Int) ≠ -450 :=
  ⟨by decide, by decide, by decide⟩

/-- Claim C9, failing input: under the entity-to-id bijection, the same
worker ranked first in the morning preference list.  The id-based scoring
gives 50 + 0 + (300 - 1*0) = 350 for the assignment coefficient while the
entity-based scoring gives 50 (the always-false preference-bearing test drops
the shift term), so the two coefficient tables do not correspond; the
double-volunteer coefficient maps do correspond entrywise. -/
theorem c9_refinamiento_ids_divergencia :
    calcularCoeficientesPuntuacion [jornadaManana] [trabajadorEjemplo] [jornadaManana]
        [(trabajadorEjemplo, jornadaManana)]
        ⟨[], [(tipoManana, [trabajadorEjemplo])], [trabajadorEjemplo]⟩
        parametrosPorDefecto
      = [((trabajadorEjemplo, puestoEjemplo, jornadaManana), 50)]
    ∧ calcularCoeficientesPuntuacionIds [trabajadorEjemplo] [jornadaManana]
        [1] [1] [(1, 1)] ⟨[], [(1, [1])], [1]⟩ parametrosPorDefecto
      = [((1, 1, 1), 350)]
    ∧ coeficientesDobles [trabajadorEjemplo] parametrosPorDefecto
      = [(trabajadorEjemplo, -1000)]
    ∧ coeficientesDoblesIds [1] parametrosPorDefecto = [(1, -1000)]
    ∧ (50 : Int) ≠ 350 :=
  ⟨by decide, by decide, by decide, by decide, by decide⟩

/-- Claim C7, failing input: one worker, one post, one morning shift, the
worker capable and available, and demand 2 for the pair.  The single
candidate variable cannot sum to 2, so no valuation satisfies the built
model and the solver reports infeasibility; asignacion.py lines 306-310 then
evaluate `solver.Value` on the created variable without branching on the
status and return the raw `(resultado, solver)` pair, constructing no `none`
status value. -/
theorem c7_modelo_infactible_sin_estado : ∀ (x : ValAsignacion) (doble : ValDoble),
    cumpleModelo [jornadaManana] [trabajadorEjemplo] [puestoEjemplo] [jornadaManana]
        [(trabajadorEjemplo, jornadaManana)] ⟨[], [(tipoManana, [])], []⟩
        parametrosPorDefecto [((1, 1), 2)] x doble = false := by
  intro x doble
  cases hcm : cumpleModelo [jornadaManana] [trabajadorEjemplo] [puestoEjemplo] [jornadaManana]
      [(trabajadorEjemplo, jornadaManana)] ⟨[], [(tipoManana, [])], []⟩
      parametrosPorDefecto [((1, 1), 2)] x doble
  · rfl
  · exfalso
    unfold cumpleModelo at hcm
    rw [Bool.and_eq_true] at hcm
    have hD := hcm.2
    have hcands : asignaciones [jornadaManana] [trabajadorEjemplo] [jornadaManana]
        [(trabajadorEjemplo, jornadaManana)] ⟨[], [(tipoManana, [])], []⟩ parametrosPorDefecto
        = [⟨trabajadorEjemplo, puestoEjemplo, jornadaManana, 50⟩] := by decide
    rw [hcands] at hD
    unfold cumpleDemanda at hD
    have h1 := (List.all_eq_true.mp hD) puestoEjemplo (List.mem_singleton.mpr rfl)
    have h2 := (List.all_eq_true.mp h1) jornadaManana (List.mem_singleton.mpr rfl)
    rw [decide_eq_true_eq] at h2
    have hfil : ([⟨trabajadorEjemplo, puestoEjemplo, jornadaManana, 50⟩] :
        List Asignacion).filter
        (fun c => pyEqP c.puesto puestoEjemplo && pyEqJ c.jornada jornadaManana)
        = [⟨trabajadorEjemplo, puestoEjemplo, jornadaManana, 50⟩] := by decide
    rw [hfil] at h2
    have hdem : demandaGet [((1, 1), 2)] puestoEjemplo jornadaManana = 2 := by decide
    rw [hdem] at h2
    simp only [List.map_cons, List.map_nil, List.sum_cons, List.sum_nil, add_zero] at h2
    cases hx0 : x (idsDe ⟨trabajadorEjemplo, puestoEjemplo, jornadaManana, 50⟩)
    · rw [hx0] at h2
      simp [intDeBool] at h2
    · rw [hx0] at h2
      simp [intDeBool] at h2

/-- Preference lists of the simple witness instance: no specialists, an empty
morning preference list, no double volunteers. -/
def listasEjemplo : ListasPreferencias := ⟨[], [(tipoManana, [])], []⟩

/-- A valuation selecting exactly the candidate with ids (1, 1, 1). -/
def xTestigoUno : ValAsignacion := fun t => decide (t = (1, 1, 1))

/-- Witness for c2: on the one-worker, one-post, one-shift instance with
demand 1 and the valuation selecting its single candidate, the model is
satisfied and the extracted assignment covers the pair with exactly one
worker. -/
theorem c2_cobertura_exacta_demanda_testigo :
    cumpleModelo [jornadaManana] [trabajadorEjemplo] [puestoEjemplo] [jornadaManana]
        [(trabajadorEjemplo, jornadaManana)] listasEjemplo parametrosPorDefecto
        [((1, 1), 1)] xTestigoUno (fun _ => false) = true
    ∧ (((((resultadoAsignacion (asignaciones [jornadaManana] [trabajadorEjemplo]
          [jornadaManana] [(trabajadorEjemplo, jornadaManana)] listasEjemplo
          parametrosPorDefecto) xTestigoUno).filter
          (fun r => pyEqP r.2.1 puestoEjemplo && pyEqJ r.2.2 jornadaManana)).length : Int)
        = demandaGet [((1, 1), 1)] puestoEjemplo jornadaManana)
      ∧ ((((resultadoAsignacion (asignaciones [jornadaManana] [trabajadorEjemplo]
          [jornadaManana] [(trabajadorEjemplo, jornadaManana)] listasEjemplo
          parametrosPorDefecto) xTestigoUno).filter
          (fun r => pyEqP r.2.1 puestoEjemplo && pyEqJ r.2.2 jornadaManana)).map
          (fun r => r.1.id)).Nodup)) :=
  ⟨by decide,
   c2_cobertura_exacta_demanda [jornadaManana] [trabajadorEjemplo] [puestoEjemplo]
     [jornadaManana] [(trabajadorEjemplo, jornadaManana)] listasEjemplo
     parametrosPorDefecto [((1, 1), 1)] xTestigoUno (fun _ => false)
     (asignaciones [jornadaManana] [trabajadorEjemplo] [jornadaManana]
       [(trabajadorEjemplo, jornadaManana)] listasEjemplo parametrosPorDefecto)
     puestoEjemplo jornadaManana rfl (by decide)
     (List.mem_singleton.mpr rfl) (List.mem_singleton.mpr rfl)⟩

/-- Preference lists of the doubling witness instance: the example worker
volunteers for doubles. -/
def listasDoblesTestigo : ListasPreferencias :=
  ⟨[], [(tipoManana, []), (tipoTarde, [])], [trabajadorEjemplo]⟩

/-- A valuation selecting the two candidates with ids (1, 1, 1) and
(1, 1, 2). -/
def xTestigoDos : ValAsignacion := fun t => decide (t = (1, 1, 1) ∨ t = (1, 1, 2))

/-- The candidate list of the doubling witness instance: one worker capable
of one post, available on the morning and afternoon shifts. -/
def candsDoblesTestigo : List Asignacion :=
  asignaciones [jornadaManana, jornadaTarde] [trabajadorEjemplo]
    [jornadaManana, jornadaTarde]
    [(trabajadorEjemplo, jornadaManana), (trabajadorEjemplo, jornadaTarde)]
    listasDoblesTestigo parametrosPorDefecto

/-- Witness for c3: the doubling instance (a double volunteer working both
doublable shifts with the doubling variable set) satisfies the model, and the
conclusions of the per-worker limits and of the double-shift gating hold on
it. -/
theorem c3_limites_trabajador_y_dobles_testigo :
    cumpleModelo [jornadaManana, jornadaTarde] [trabajadorEjemplo] [puestoEjemplo]
        [jornadaManana, jornadaTarde]
        [(trabajadorEjemplo, jornadaManana), (trabajadorEjemplo, jornadaTarde)]
        listasDoblesTestigo parametrosPorDefecto [((1, 1), 1), ((1, 2), 1)]
        xTestigoDos (fun _ => true) = true
    ∧ ((∀ w ∈ [trabajadorEjemplo],
          (esVoluntarioDoble listasDoblesTestigo.voluntarios_doble w = true →
            (candsDoblesTestigo.filter
              (fun c => pyEqT c.trabajador w && xTestigoDos (idsDe c))).length ≤ 2)
        ∧ (esVoluntarioDoble listasDoblesTestigo.voluntarios_doble w = false →
            (candsDoblesTestigo.filter
              (fun c => pyEqT c.trabajador w && xTestigoDos (idsDe c))).length ≤ 1))
      ∧ (∀ c1 ∈ candsDoblesTestigo, ∀ c2 ∈ candsDoblesTestigo,
          pyEqT c2.trabajador c1.trabajador = true →
          xTestigoDos (idsDe c1) = true → xTestigoDos (idsDe c2) = true →
          c1.jornada.id ≠ c2.jornada.id →
            esVoluntarioDoble listasDoblesTestigo.voluntarios_doble c1.trabajador = true
            ∧ (∀ c ∈ candsDoblesTestigo, pyEqT c.trabajador c1.trabajador = true →
                xTestigoDos (idsDe c) = true → c.jornada.puede_doblar = true))) :=
  ⟨by decide,
   c3_limites_trabajador_y_dobles [jornadaManana, jornadaTarde] [trabajadorEjemplo]
     [puestoEjemplo] [jornadaManana, jornadaTarde]
     [(trabajadorEjemplo, jornadaManana), (trabajadorEjemplo, jornadaTarde)]
     listasDoblesTestigo parametrosPorDefecto [((1, 1), 1), ((1, 2), 1)]
     xTestigoDos (fun _ => true) candsDoblesTestigo rfl (by decide)⟩

/-- Witness for c4: on the doubling instance the objective of the model
equals the claim's expression evaluated on the same valuations. -/
theorem c4_funcion_objetivo_testigo :
    ((([trabajadorEjemplo].map (fun t => t.id)).Nodup)
      ∧ ((listasDoblesTestigo.voluntarios_doble.map (fun v => v.id)).Nodup)
      ∧ (∀ v ∈ listasDoblesTestigo.voluntarios_doble,
          ∃ t ∈ [trabajadorEjemplo], t.id = v.id))
    ∧ objetivoModelo candsDoblesTestigo [trabajadorEjemplo]
        listasDoblesTestigo.voluntarios_doble parametrosPorDefecto xTestigoDos
        (fun _ => true)
      = ((calcularCoeficientesPuntuacion [jornadaManana, jornadaTarde] [trabajadorEjemplo]
            [jornadaManana, jornadaTarde]
            [(trabajadorEjemplo, jornadaManana), (trabajadorEjemplo, jornadaTarde)]
            listasDoblesTestigo parametrosPorDefecto).map
          (fun e => e.2 * intDeBool (xTestigoDos (e.1.1.id, e.1.2.1.id, e.1.2.2.id)))).sum
        + (listasDoblesTestigo.voluntarios_doble.map (fun v =>
            (parametrosPorDefecto.max_voluntarios_doble
              - parametrosPorDefecto.decay_voluntarios_doble
                  * ((indiceDe listasDoblesTestigo.voluntarios_doble v : Nat) : Int))
              * intDeBool true)).sum :=
  ⟨⟨by decide, by decide, by decide⟩,
   c4_funcion_objetivo [jornadaManana, jornadaTarde] [trabajadorEjemplo]
     [jornadaManana, jornadaTarde]
     [(trabajadorEjemplo, jornadaManana), (trabajadorEjemplo, jornadaTarde)]
     listasDoblesTestigo parametrosPorDefecto xTestigoDos (fun _ => true)
     candsDoblesTestigo rfl (by decide) (by decide) (by decide)⟩

/-- Witness for c5: on the simple instance the variable-existence test for
the triple of the example worker, post and shift agrees with the candidate
predicate (both are true there). -/
theorem c5_tabla_exactamente_candidatos_testigo :
    (([trabajadorEjemplo].map (fun t => t.id)).Nodup)
    ∧ ((asignaciones [jornadaManana] [trabajadorEjemplo] [jornadaManana]
          [(trabajadorEjemplo, jornadaManana)] listasEjemplo parametrosPorDefecto).any
        (fun c => decide (idsDe c
          = (trabajadorEjemplo.id, puestoEjemplo.id, jornadaManana.id))))
      = (trabajadorEjemplo.capacidades.any (fun pn => pn.1.id == puestoEjemplo.id)
          && disponibleEn [(trabajadorEjemplo, jornadaManana)] trabajadorEjemplo
              jornadaManana) :=
  ⟨by decide,
   c5_tabla_exactamente_candidatos [jornadaManana] [trabajadorEjemplo] [jornadaManana]
     [(trabajadorEjemplo, jornadaManana)] listasEjemplo parametrosPorDefecto
     trabajadorEjemplo puestoEjemplo jornadaManana (by decide)
     (List.mem_singleton.mpr rfl) (List.mem_singleton.mpr rfl)⟩

/-- The registry of the c6 witness: one entity with id 1. -/
def registroEjemplo : List (Nat × Entidad) := [(1, ⟨1, ["Ana"]⟩)]

/-- Witness for c6: re-registering id 1 with equal fields returns the
existing instance, re-registering it with a differing field raises the
duplicate-id conflict, and registering the fresh id 2 extends the registry. -/
theorem c6_registro_identificable_testigo :
    identificableNew registroEjemplo ⟨1, ["Ana"]⟩
        = Except.ok (⟨1, ["Ana"]⟩, registroEjemplo)
    ∧ identificableNew registroEjemplo ⟨1, ["Eva"]⟩
        = Except.error "DuplicateIdConflict"
    ∧ identificableNew registroEjemplo ⟨2, ["Eva"]⟩
        = Except.ok (⟨2, ["Eva"]⟩, registroEjemplo ++ [(2, ⟨2, ["Eva"]⟩)]) :=
  ⟨((c6_registro_identificable registroEjemplo ⟨1, ["Ana"]⟩).1 ⟨1, ["Ana"]⟩
      (by decide) (by decide)).1 (by decide),
   ((c6_registro_identificable registroEjemplo ⟨1, ["Eva"]⟩).1 ⟨1, ["Ana"]⟩
      (by decide) (by decide)).2 (by decide),
   (c6_registro_identificable registroEjemplo ⟨2, ["Eva"]⟩).2 (by decide)⟩

/-- Witness for c10: two workers with the same id but different names, codes
and capabilities compare equal and hash equal. -/
theorem c10_igualdad_y_hash_por_id_testigo :
    pyEqIdentificable (ObjetoIdentificable.deTrabajador trabajadorEjemplo)
        (ObjetoIdentificable.deTrabajador ⟨1, "Eva", "Gil", 200, [], []⟩) = true
    ∧ pyHashIdentificable (ObjetoIdentificable.deTrabajador trabajadorEjemplo)
        = pyHashIdentificable
            (ObjetoIdentificable.deTrabajador ⟨1, "Eva", "Gil", 200, [], []⟩) :=
  ⟨(c10_igualdad_y_hash_por_id (ObjetoIdentificable.deTrabajador trabajadorEjemplo)
      (ObjetoIdentificable.deTrabajador ⟨1, "Eva", "Gil", 200, [], []⟩)).1.mpr
      (by decide),
   (c10_igualdad_y_hash_por_id (ObjetoIdentificable.deTrabajador trabajadorEjemplo)
      (ObjetoIdentificable.deTrabajador ⟨1, "Eva", "Gil", 200, [], []⟩)).2.1
      (by decide)⟩
